import Mathlib

/-!
Verification of the unified-calendar frontend's event aggregation and
filtering module.

The TypeScript source is shallowly embedded:
* timestamps (ISO strings parsed through date-fns `parseISO` into local-time
  `Date` values) are represented by their calendar fields plus milliseconds
  within the day; `Date.getTime()` comparisons agree with the lexicographic
  order on those fields for a fixed timezone, so the date-fns predicates
  `isPast`, `isFuture`, `isToday`, `isSameDay`, `isSameMonth`, `startOfDay`
  become computable functions on this representation;
* every asynchronous store operation is modelled as a pure function from the
  current store state and the outcome of its HTTP call(s) to the new store
  state together with an `Except` value: `Except.error e` means the operation
  re-throws (rejects) towards its caller, `Except.ok v` means it resolves
  with `v`;
* `console.log` / `console.error` calls and `Alert.alert` calls are recorded
  explicitly where a claim is about them (the axios response interceptors),
  and dropped elsewhere since they affect neither state nor control flow.
-/

/-- A local-time instant as produced by `parseISO`: calendar fields plus the
milliseconds elapsed within the day. -/
structure DateTime where
  year : Int
  month : Nat
  day : Nat
  msOfDay : Nat
deriving DecidableEq

/-- Strict order on instants, matching `a.getTime() < b.getTime()` for
local-time `Date` values (lexicographic on calendar fields then time of
day). -/
def DateTime.lt (a b : DateTime) : Prop :=
  a.year < b.year ∨
    (a.year = b.year ∧ (a.month < b.month ∨
      (a.month = b.month ∧ (a.day < b.day ∨
        (a.day = b.day ∧ a.msOfDay < b.msOfDay)))))

/-- Reflexive order on instants. -/
def DateTime.le (a b : DateTime) : Prop :=
  DateTime.lt a b ∨ a = b

/-- Boolean strict comparison of instants. -/
def DateTime.ltb (a b : DateTime) : Bool :=
  if a.year ≠ b.year then decide (a.year < b.year)
  else if a.month ≠ b.month then decide (a.month < b.month)
  else if a.day ≠ b.day then decide (a.day < b.day)
  else decide (a.msOfDay < b.msOfDay)

/-- date-fns `isPast(t)`: `t` is strictly before the reference instant. -/
def isPast (t now : DateTime) : Bool := DateTime.ltb t now

/-- date-fns `isFuture(t)`: `t` is strictly after the reference instant. -/
def isFuture (t now : DateTime) : Bool := DateTime.ltb now t

/-- date-fns `isSameDay`: same calendar day, ignoring time of day. -/
def isSameDay (a b : DateTime) : Bool :=
  a.year == b.year && a.month == b.month && a.day == b.day

/-- date-fns `isToday(t)`: `t` lies on the same calendar day as "now". -/
def isToday (t now : DateTime) : Bool := isSameDay t now

/-- date-fns `isSameMonth`: same calendar month of the same year. -/
def isSameMonth (a b : DateTime) : Bool :=
  a.year == b.year && a.month == b.month

/-- date-fns `startOfDay`: midnight of the instant's calendar day. -/
def startOfDay (t : DateTime) : DateTime := { t with msOfDay := 0 }

theorem DateTime.ltb_iff (a b : DateTime) :
    DateTime.ltb a b = true ↔ DateTime.lt a b := by
  cases a with | mk ay am ad ams =>
  cases b with | mk by' bm bd bms =>
  simp only [DateTime.ltb, DateTime.lt]
  split_ifs <;> simp_all

theorem DateTime.lt_irrefl (a : DateTime) : ¬ DateTime.lt a a := by
  cases a with | mk ay am ad ams =>
  simp only [DateTime.lt]
  omega

/-- The `upcoming` status condition of the events screens,
`isFuture(start) || isToday(start)`, holds exactly when the instant is at or
after the start of the calendar day containing "now". -/
theorem upcoming_cond_iff (s now : DateTime) :
    (isFuture s now || isToday s now) = true ↔
      DateTime.le (startOfDay now) s := by
  cases s with | mk sy sm sd sms =>
  cases now with | mk ny nm nd nms =>
  simp only [isFuture, isToday, isSameDay, startOfDay, Bool.or_eq_true,
    DateTime.ltb_iff, Bool.and_eq_true, beq_iff_eq, DateTime.le, DateTime.lt,
    DateTime.mk.injEq]
  constructor
  · intro h
    omega
  · intro h
    omega

/-- `CalendarEvent` from `src/stores/calendarStore.ts`. The ISO timestamp
strings `start_time` and `end_time` are represented by their parsed
(`parseISO`) values; `created_at` is never parsed by the modelled code and
stays a string. -/
structure CalendarEvent where
  id : String
  title : String
  description : Option String := none
  start_time : DateTime
  end_time : DateTime
  calendar_source : String
  location : Option String := none
  is_invite : Bool
  invite_status : Option String := none
  created_at : String
deriving DecidableEq

/-- The filter tab selected on the events screens. -/
inductive FilterMode where
  | all
  | upcoming
  | past
  | invites
deriving DecidableEq

/-- `getFilteredEvents` from `src/unnamed/part_001` (events screen without
month scoping): `upcoming` keeps events starting in the future or today,
`past` keeps events whose end is past, `invites` keeps pending invites,
`all` keeps everything. -/
def getFilteredEvents (filter : FilterMode) (events : List CalendarEvent)
    (now : DateTime) : List CalendarEvent :=
  match filter with
  | .upcoming =>
      events.filter (fun event =>
        isFuture event.start_time now || isToday event.start_time now)
  | .past => events.filter (fun event => isPast event.end_time now)
  | .invites =>
      events.filter (fun event =>
        event.is_invite && event.invite_status == some "pending")
  | .all => events

/-- `getFilteredEvents` from `src/app/(tabs)/events.tsx`: identical status
conditions, each followed by a second `.filter` keeping only events whose
start lies in the selected month (applied to every mode, including `all`). -/
def getFilteredEventsMonth (filter : FilterMode) (events : List CalendarEvent)
    (now : DateTime) (selectedMonth : DateTime) : List CalendarEvent :=
  match filter with
  | .upcoming =>
      (events.filter (fun event =>
        isFuture event.start_time now || isToday event.start_time now)).filter
          (fun event => isSameMonth event.start_time selectedMonth)
  | .past =>
      (events.filter (fun event => isPast event.end_time now)).filter
        (fun event => isSameMonth event.start_time selectedMonth)
  | .invites =>
      (events.filter (fun event =>
        event.is_invite && event.invite_status == some "pending")).filter
          (fun event => isSameMonth event.start_time selectedMonth)
  | .all =>
      events.filter (fun event => isSameMonth event.start_time selectedMonth)

/-- `selectedDateEvents` from `src/app/(tabs)/calendar.tsx`: the events whose
start lies on the same calendar day as the selected date. -/
def selectedDateEvents (events : List CalendarEvent) (selectedDate : DateTime) :
    List CalendarEvent :=
  events.filter (fun event => isSameDay event.start_time selectedDate)

/-- C3: the `past` filter mode keeps exactly the events whose end is strictly
before "now"; an event ending exactly at "now" is excluded; and every event
the month-scoped variant keeps under `past` also ends strictly before
"now". -/
theorem past_filter_strictly_before (events : List CalendarEvent)
    (now : DateTime) :
    (∀ e, e ∈ getFilteredEvents .past events now ↔
      e ∈ events ∧ DateTime.lt e.end_time now)
    ∧ (∀ e, e ∈ events → e.end_time = now →
        e ∉ getFilteredEvents .past events now)
    ∧ (∀ (selectedMonth : DateTime) e,
        e ∈ getFilteredEventsMonth .past events now selectedMonth →
          DateTime.lt e.end_time now) := by
  refine ⟨fun e => ?_, fun e _ heq hmem => ?_, fun selectedMonth e hmem => ?_⟩
  · simp [getFilteredEvents, List.mem_filter, isPast, DateTime.ltb_iff]
  · rw [getFilteredEvents, List.mem_filter, isPast, DateTime.ltb_iff, heq] at hmem
    exact DateTime.lt_irrefl now hmem.2
  · rw [getFilteredEventsMonth, List.mem_filter] at hmem
    rw [List.mem_filter, isPast, DateTime.ltb_iff] at hmem
    exact hmem.1.2

/-- A concrete instance of `past_filter_strictly_before`: with "now" at
2024-06-15 12:00, an event ending 2024-06-14 is kept and an event ending
exactly at "now" is excluded. -/
theorem past_filter_strictly_before_witness :
    ((⟨"1", "a", none, ⟨2024, 6, 13, 0⟩, ⟨2024, 6, 14, 0⟩, "local", none,
        false, none, "c"⟩ : CalendarEvent) ∈
      getFilteredEvents .past
        [⟨"1", "a", none, ⟨2024, 6, 13, 0⟩, ⟨2024, 6, 14, 0⟩, "local", none,
          false, none, "c"⟩,
         ⟨"2", "b", none, ⟨2024, 6, 15, 0⟩, ⟨2024, 6, 15, 43200000⟩, "local",
          none, false, none, "c"⟩] ⟨2024, 6, 15, 43200000⟩ ↔
      ((⟨"1", "a", none, ⟨2024, 6, 13, 0⟩, ⟨2024, 6, 14, 0⟩, "local", none,
          false, none, "c"⟩ : CalendarEvent) ∈
        [⟨"1", "a", none, ⟨2024, 6, 13, 0⟩, ⟨2024, 6, 14, 0⟩, "local", none,
          false, none, "c"⟩,
         ⟨"2", "b", none, ⟨2024, 6, 15, 0⟩, ⟨2024, 6, 15, 43200000⟩, "local",
          none, false, none, "c"⟩]
        ∧ DateTime.lt ⟨2024, 6, 14, 0⟩ ⟨2024, 6, 15, 43200000⟩))
    ∧ (⟨"2", "b", none, ⟨2024, 6, 15, 0⟩, ⟨2024, 6, 15, 43200000⟩, "local",
        none, false, none, "c"⟩ : CalendarEvent) ∉
      getFilteredEvents .past
        [⟨"1", "a", none, ⟨2024, 6, 13, 0⟩, ⟨2024, 6, 14, 0⟩, "local", none,
          false, none, "c"⟩,
         ⟨"2", "b", none, ⟨2024, 6, 15, 0⟩, ⟨2024, 6, 15, 43200000⟩, "local",
          none, false, none, "c"⟩] ⟨2024, 6, 15, 43200000⟩ :=
  ⟨(past_filter_strictly_before _ _).1 _,
   (past_filter_strictly_before _ _).2.1 _ (by simp) rfl⟩

/-- C4: the month-scoped `upcoming` filter keeps exactly the events whose
start is at or after the start of the calendar day containing "now" and lies
in the selected month; the unscoped variant keeps exactly the events whose
start is at or after the start of that day. -/
theorem upcoming_filter_from_start_of_today (events : List CalendarEvent)
    (now selectedMonth : DateTime) :
    (∀ e, e ∈ getFilteredEventsMonth .upcoming events now selectedMonth ↔
      e ∈ events ∧ DateTime.le (startOfDay now) e.start_time
        ∧ isSameMonth e.start_time selectedMonth = true)
    ∧ (∀ e, e ∈ getFilteredEvents .upcoming events now ↔
        e ∈ events ∧ DateTime.le (startOfDay now) e.start_time) := by
  constructor
  · intro e
    rw [getFilteredEventsMonth, List.mem_filter, List.mem_filter,
      upcoming_cond_iff]
    tauto
  · intro e
    rw [getFilteredEvents, List.mem_filter, upcoming_cond_iff]

/-- C8: the day-scoped view keeps exactly the events whose start lies on the
selected date's calendar day; day equality ignores time-of-day entirely, and
23:59 of one day and 00:01 of the next day are different days. -/
theorem selected_date_events_same_calendar_day (events : List CalendarEvent)
    (selectedDate : DateTime) :
    (∀ e, e ∈ selectedDateEvents events selectedDate ↔
      e ∈ events ∧ e.start_time.year = selectedDate.year
        ∧ e.start_time.month = selectedDate.month
        ∧ e.start_time.day = selectedDate.day)
    ∧ (∀ (a b : DateTime) (t u : Nat),
        isSameDay { a with msOfDay := t } { b with msOfDay := u } =
          isSameDay a b)
    ∧ isSameDay ⟨2024, 6, 14, 86340000⟩ ⟨2024, 6, 15, 60000⟩ = false := by
  refine ⟨fun e => ?_, fun a b t u => rfl, by decide⟩
  simp [selectedDateEvents, List.mem_filter, isSameDay, and_assoc]

/-- `CalendarSource` from `src/stores/calendarStore.ts`. -/
structure CalendarSource where
  id : String
  name : String
  type : String
  color : String
  is_active : Bool
deriving DecidableEq

/-- The body-derived fields of an axios response that the modelled code
inspects: the HTTP status and the optional `message` / `detail` fields of
`response.data`. -/
structure AxiosResponse where
  status : Nat
  message : Option String := none
  detail : Option String := none
deriving DecidableEq

/-- An axios rejection value: `response` is present when the server answered
with an error status, `request` is true when a request object exists (the
request was sent but no response arrived), and `message` is the error's own
message. -/
structure AxiosError where
  response : Option AxiosResponse := none
  request : Bool := true
  message : Option String := none
deriving DecidableEq

/-- The `/api/events` response body:
`{local_events, google_events, apple_events, microsoft_events,
apple_connected}`, every bucket optional (the store destructures each with
default `[]`). -/
structure EventsResponse where
  local_events : Option (List CalendarEvent) := none
  google_events : Option (List CalendarEvent) := none
  apple_events : Option (List CalendarEvent) := none
  microsoft_events : Option (List CalendarEvent) := none
  apple_connected : Option Bool := none
deriving DecidableEq

/-- The zustand store state from `src/stores/calendarStore.ts` (the function
fields are modelled as the standalone operations below). -/
structure CalendarState where
  events : List CalendarEvent
  calendarSources : List CalendarSource
  selectedSources : List String
  viewMode : String
  selectedDate : DateTime
  isLoading : Bool
  appleConnected : Bool
deriving DecidableEq

/-- The store's initial state. -/
def initialCalendarState : CalendarState :=
  { events := []
    calendarSources := []
    selectedSources := ["google", "apple", "microsoft"]
    viewMode := "month"
    selectedDate := ⟨2024, 1, 1, 0⟩
    isLoading := false
    appleConnected := false }

/-- `fetchEvents` from `src/stores/calendarStore.ts`, as a function of the
outcome of the `GET /api/events` call. It first sets `isLoading` to true; on
success it concatenates the four buckets (defaulting each to `[]`), derives
`appleConnected`, and clears `isLoading`; on any failure it only logs and
clears `isLoading`. It resolves (never rejects) in both cases. -/
def fetchEvents (s : CalendarState)
    (r : Except AxiosError EventsResponse) :
    CalendarState × Except AxiosError Unit :=
  let s1 := { s with isLoading := true }
  match r with
  | .error _ => ({ s1 with isLoading := false }, .ok ())
  | .ok resp =>
      let allEvents := resp.local_events.getD [] ++ resp.google_events.getD []
        ++ resp.apple_events.getD [] ++ resp.microsoft_events.getD []
      let appleConnected :=
        decide ((resp.apple_events.getD []).length > 0)
          || resp.apple_connected == some true
      ({ s1 with
          events := allEvents
          isLoading := false
          appleConnected := appleConnected }, .ok ())

/-- C1: a successful `fetchEvents` replaces the store's list with exactly the
concatenation local ++ google ++ apple ++ microsoft of the response buckets
(each defaulting to `[]` when absent), independent of the prior list, and
ends with `isLoading` cleared. -/
theorem fetchEvents_success_concatenates_buckets (s : CalendarState)
    (resp : EventsResponse) :
    (fetchEvents s (.ok resp)).1.events =
      resp.local_events.getD [] ++ resp.google_events.getD []
        ++ resp.apple_events.getD [] ++ resp.microsoft_events.getD []
    ∧ (fetchEvents s (.ok resp)).1.isLoading = false
    ∧ (fetchEvents s (.ok resp)).2 = Except.ok () :=
  ⟨rfl, rfl, rfl⟩

/-- C2: a failed `fetchEvents` leaves the whole state at its prior value
except for `isLoading`, which ends false, and resolves rather than
re-throwing the failure. -/
theorem fetchEvents_failure_keeps_prior_list (s : CalendarState)
    (e : AxiosError) :
    fetchEvents s (.error e) = ({ s with isLoading := false }, Except.ok ()) :=
  rfl

/-- `createEvent` from `src/stores/calendarStore.ts`: POST the event, then
`await fetchEvents()`; on failure log and re-throw (the fetch never runs). -/
def createEvent (s : CalendarState) (post : Except AxiosError Unit)
    (fetch : Except AxiosError EventsResponse) :
    CalendarState × Except AxiosError Unit :=
  match post with
  | .error e => (s, .error e)
  | .ok _ => ((fetchEvents s fetch).1, .ok ())

/-- `updateEvent` from `src/stores/calendarStore.ts`: PUT the event, then
`await fetchEvents()`; on failure log (and alert on 422/404) and re-throw. -/
def updateEvent (s : CalendarState) (eventId : String)
    (put : Except AxiosError Unit)
    (fetch : Except AxiosError EventsResponse) :
    CalendarState × Except AxiosError Unit :=
  match put with
  | .error e => (s, .error e)
  | .ok _ => ((fetchEvents s fetch).1, .ok ())

/-- `deleteEvent` from `src/stores/calendarStore.ts`: DELETE the event, then
`await fetchEvents()`; on failure log and re-throw. -/
def deleteEvent (s : CalendarState) (eventId : String)
    (del : Except AxiosError Unit)
    (fetch : Except AxiosError EventsResponse) :
    CalendarState × Except AxiosError Unit :=
  match del with
  | .error e => (s, .error e)
  | .ok _ => ((fetchEvents s fetch).1, .ok ())

/-- `respondToInvite` from `src/stores/calendarStore.ts`: PATCH the response,
then `await fetchEvents()`; on failure log and re-throw. -/
def respondToInvite (s : CalendarState) (eventId status : String)
    (patch : Except AxiosError Unit)
    (fetch : Except AxiosError EventsResponse) :
    CalendarState × Except AxiosError Unit :=
  match patch with
  | .error e => (s, .error e)
  | .ok _ => ((fetchEvents s fetch).1, .ok ())

/-- C5: when the backend call fails, each CRUD operation leaves the whole
store state (in particular the events list) unchanged, re-throws the failure,
and performs no re-fetch (the result ignores the would-be fetch outcome);
only on backend success does the state become the result of `fetchEvents`. -/
theorem crud_failure_rethrows_no_refetch (s : CalendarState)
    (e : AxiosError) (fetch : Except AxiosError EventsResponse)
    (eventId status : String) :
    createEvent s (.error e) fetch = (s, Except.error e)
    ∧ updateEvent s eventId (.error e) fetch = (s, Except.error e)
    ∧ deleteEvent s eventId (.error e) fetch = (s, Except.error e)
    ∧ respondToInvite s eventId status (.error e) fetch = (s, Except.error e)
    ∧ createEvent s (.ok ()) fetch = ((fetchEvents s fetch).1, Except.ok ())
    ∧ updateEvent s eventId (.ok ()) fetch
        = ((fetchEvents s fetch).1, Except.ok ())
    ∧ deleteEvent s eventId (.ok ()) fetch
        = ((fetchEvents s fetch).1, Except.ok ())
    ∧ respondToInvite s eventId status (.ok ()) fetch
        = ((fetchEvents s fetch).1, Except.ok ()) :=
  ⟨rfl, rfl, rfl, rfl, rfl, rfl, rfl, rfl⟩

/-- `connectAppleCalendar` from `src/stores/calendarStore.ts`: POST the
credentials; on status 200 set `appleConnected`, refresh events and resolve
`true`; on any other status resolve `false`; on a thrown failure log and
resolve `false` (no re-throw). The `ok` payload carries the response
status. -/
def connectAppleCalendar (s : CalendarState)
    (post : Except AxiosError AxiosResponse)
    (fetch : Except AxiosError EventsResponse) :
    CalendarState × Except AxiosError Bool :=
  match post with
  | .error _ => (s, .ok false)
  | .ok resp =>
      if resp.status == 200 then
        ((fetchEvents { s with appleConnected := true } fetch).1, .ok true)
      else
        (s, .ok false)

/-- `syncAppleEvents` from `src/stores/calendarStore.ts`: POST the sync
request then refresh events; on failure log and `throw error` — it re-throws,
unlike the service-level sync. -/
def syncAppleEvents (s : CalendarState)
    (post : Except AxiosError Unit)
    (fetch : Except AxiosError EventsResponse) :
    CalendarState × Except AxiosError Unit :=
  match post with
  | .error e => (s, .error e)
  | .ok _ => ((fetchEvents s fetch).1, .ok ())

/-- The `{success, error}` result shape of the Apple calendar service. -/
structure SyncResult where
  success : Bool
  error : Option String := none
deriving DecidableEq

namespace AppleCalendarService

/-- `AppleCalendarService.syncEvents` from
`src/services/appleCalendarService.ts`: status 200 yields `{success: true}`,
any other status yields `{success: false, error: detail || 'Sync failed'}`,
and a thrown failure is converted to
`{success: false, error: detail || message || 'Sync failed'}` — never
re-thrown. -/
def syncEvents (r : Except AxiosError AxiosResponse) : SyncResult :=
  match r with
  | .ok resp =>
      if resp.status == 200 then { success := true }
      else { success := false, error := some (resp.detail.getD "Sync failed") }
  | .error e =>
      { success := false
        error := some (((e.response.bind AxiosResponse.detail).orElse
          (fun _ => e.message)).getD "Sync failed") }

end AppleCalendarService

/-- C6 counterexample: the store's `syncAppleEvents` belongs to the Apple
connect/sync family, yet on a network failure it re-throws the error to its
caller (`Except.error`) instead of returning a structured failure value —
refuting the claim that every operation of that family returns a structured
failure instead of throwing. -/
theorem sync_apple_events_rethrows_counterexample :
    (syncAppleEvents initialCalendarState
      (.error { response := none, request := true,
                message := some "Network Error" })
      (.ok {})).2 =
      Except.error { response := none, request := true,
                     message := some "Network Error" }
    ∧ (syncAppleEvents initialCalendarState
        (.error { response := none, request := true,
                  message := some "Network Error" })
        (.ok {})).2 ≠ Except.ok () :=
  ⟨rfl, by simp [syncAppleEvents]⟩

/-- C6 amended: on failure `connectAppleCalendar` resolves `false` without
throwing and the service-level `AppleCalendarService.syncEvents` returns a
`{success: false, error}` result; the store-level `syncAppleEvents`, however,
re-throws its failure exactly like the generic CRUD family. -/
theorem apple_family_failure_shapes (s : CalendarState) (e : AxiosError)
    (fetch : Except AxiosError EventsResponse) :
    connectAppleCalendar s (.error e) fetch = (s, Except.ok false)
    ∧ (AppleCalendarService.syncEvents (.error e)).success = false
    ∧ (AppleCalendarService.syncEvents (.error e)).error ≠ none
    ∧ syncAppleEvents s (.error e) fetch = (s, Except.error e) := by
  refine ⟨rfl, rfl, ?_, rfl⟩
  simp [AppleCalendarService.syncEvents]

/-- `toggleSource` from `src/stores/calendarStore.ts`, restricted to its
effect on `selectedSources` (it then triggers a re-fetch): remove the id when
present, append it when absent. -/
def toggleSource (sourceId : String) (selectedSources : List String) :
    List String :=
  if selectedSources.contains sourceId then
    selectedSources.filter (fun id => id != sourceId)
  else
    selectedSources ++ [sourceId]

/-- C10: on a list holding `sourceId` at most once, toggling twice restores
the selection as a set (and exactly, as a list, when the id was absent), the
first toggle flipping membership and the second flipping it back. -/
theorem toggle_source_involutive_on_membership (l : List String)
    (sourceId : String) (hcount : l.count sourceId ≤ 1) :
    (∀ x, x ∈ toggleSource sourceId (toggleSource sourceId l) ↔ x ∈ l)
    ∧ (sourceId ∉ l → toggleSource sourceId (toggleSource sourceId l) = l)
    ∧ (sourceId ∈ toggleSource sourceId l ↔ sourceId ∉ l) := by
  by_cases hmem : sourceId ∈ l
  · have h1 : toggleSource sourceId l = l.filter (fun id => id != sourceId) := by
      simp [toggleSource, List.contains, hmem]
    have h2 : sourceId ∉ l.filter (fun id => id != sourceId) := by
      simp [List.mem_filter]
    have h3 : toggleSource sourceId (toggleSource sourceId l)
        = l.filter (fun id => id != sourceId) ++ [sourceId] := by
      rw [h1, toggleSource, if_neg (by simp [List.contains])]
    refine ⟨fun x => ?_, fun habs => absurd hmem habs, ?_⟩
    · rw [h3]
      simp only [List.mem_append, List.mem_filter, List.mem_singleton,
        bne_iff_ne, ne_eq]
      constructor
      · rintro (⟨hx, _⟩ | hx)
        · exact hx
        · exact hx ▸ hmem
      · intro hx
        by_cases hxs : x = sourceId
        · exact Or.inr hxs
        · exact Or.inl ⟨hx, hxs⟩
    · rw [h1]
      simp [List.mem_filter, hmem]
  · have h1 : toggleSource sourceId l = l ++ [sourceId] := by
      rw [toggleSource, if_neg (by simpa [List.contains] using hmem)]
    have h2 : toggleSource sourceId (toggleSource sourceId l) = l := by
      rw [h1, toggleSource, if_pos (by simp [List.contains])]
      rw [List.filter_append]
      have : l.filter (fun id => id != sourceId) = l :=
        List.filter_eq_self.mpr (fun a ha => by
          simp only [bne_iff_ne, ne_eq, decide_eq_true_eq]
          exact fun h => hmem (h ▸ ha))
      simp [this]
    refine ⟨fun x => by rw [h2], fun _ => h2, ?_⟩
    rw [h1]
    simp [hmem]

/-- A concrete instance of `toggle_source_involutive_on_membership`: toggling
the absent id "microsoft" twice on `["google", "apple"]` first adds it, then
restores the original list exactly. -/
theorem toggle_source_involutive_witness :
    (["google", "apple"].count "microsoft" ≤ 1)
    ∧ toggleSource "microsoft" (toggleSource "microsoft" ["google", "apple"])
        = ["google", "apple"]
    ∧ ("microsoft" ∈ toggleSource "microsoft" ["google", "apple"] ↔
        "microsoft" ∉ ["google", "apple"]) :=
  ⟨by decide,
   (toggle_source_involutive_on_membership ["google", "apple"] "microsoft"
      (by decide)).2.1 (by decide),
   (toggle_source_involutive_on_membership ["google", "apple"] "microsoft"
      (by decide)).2.2⟩

/-- The user-facing alerts a response interceptor can raise. -/
inductive AlertMsg where
  | serverError (status : Nat) (message : String)
  | networkError
  | unexpectedError (message : String)
deriving DecidableEq

/-- What one pass through a response interceptor produces: the alerts shown,
whether the failure was logged, and the value handed back to the awaiting
caller (`Except.error` = the rejection is propagated). -/
structure InterceptResult where
  alerts : List AlertMsg
  logged : Bool
  outcome : Except AxiosError Unit

/-- The response interceptor of `apiClient` in `src/stores/calendarStore.ts`:
log the failure; when a response is present, alert unless the status is 422
or 404 (those are handled by the caller); when only a request exists, show a
network-error alert; otherwise show a generic unexpected-error alert; always
return `Promise.reject(error)`. -/
def apiClientResponseInterceptor (error : AxiosError) : InterceptResult :=
  let alerts :=
    match error.response with
    | some r =>
        if r.status ≠ 422 ∧ r.status ≠ 404 then
          [AlertMsg.serverError r.status
            ((r.message.orElse (fun _ => r.detail)).getD "Unknown error")]
        else []
    | none =>
        if error.request then [AlertMsg.networkError]
        else [AlertMsg.unexpectedError (error.message.getD "Unknown error")]
  { alerts := alerts, logged := true, outcome := .error error }

/-- The response interceptor of `api` in `src/unnamed/part_006`: every branch
(response present, request-only, setup error) only writes to `console.error`
— no alert is ever shown — and `Promise.reject(error)` is returned. -/
def apiResponseInterceptorPart006 (error : AxiosError) : InterceptResult :=
  { alerts := [], logged := true, outcome := .error error }

/-- A server failure carrying HTTP status 500. -/
def status500Error : AxiosError :=
  { response := some { status := 500, message := none, detail := some "boom" }
    request := true
    message := some "Request failed with status code 500" }

/-- C7 counterexample: a failed response with status 500 — a status that is
neither 404 nor 422 — passes through the `src/unnamed/part_006` global
response interceptor without any user-facing alert, refuting "a blocking
user-facing alert is shown if and only if the status is neither 404 nor 422"
for that interceptor. -/
theorem part006_interceptor_no_alert_counterexample :
    status500Error.response =
      some { status := 500, message := none, detail := some "boom" }
    ∧ ((500 : Nat) ≠ 404 ∧ (500 : Nat) ≠ 422)
    ∧ (apiResponseInterceptorPart006 status500Error).alerts = [] :=
  ⟨rfl, by decide, rfl⟩

/-- C7 amended: the `calendarStore` interceptor alerts exactly when the
status is neither 404 nor 422, shows a network-error alert when no response
was received but a request exists, and always logs and propagates the
rejection; the `part_006` interceptor always logs and propagates but never
alerts. -/
theorem response_interceptor_alert_policy (error : AxiosError)
    (r : AxiosResponse) :
    (error.response = some r →
      ((apiClientResponseInterceptor error).alerts ≠ [] ↔
        (r.status ≠ 404 ∧ r.status ≠ 422)))
    ∧ (error.response = none → error.request = true →
        (apiClientResponseInterceptor error).alerts = [AlertMsg.networkError])
    ∧ (apiClientResponseInterceptor error).logged = true
    ∧ (apiClientResponseInterceptor error).outcome = Except.error error
    ∧ (apiResponseInterceptorPart006 error).alerts = []
    ∧ (apiResponseInterceptorPart006 error).logged = true
    ∧ (apiResponseInterceptorPart006 error).outcome = Except.error error := by
  refine ⟨fun hr => ?_, fun h0 h1 => ?_, rfl, rfl, rfl, rfl, rfl⟩
  · simp only [apiClientResponseInterceptor, hr]
    split_ifs with h <;> simp <;> tauto
  · simp [apiClientResponseInterceptor, h0, h1]

/-- A concrete instance of `response_interceptor_alert_policy`: for the
status-500 failure, the `calendarStore` interceptor's alert-iff condition
holds and the rejection is propagated. -/
theorem response_interceptor_alert_policy_witness :
    ((apiClientResponseInterceptor status500Error).alerts ≠ [] ↔
      ((500 : Nat) ≠ 404 ∧ (500 : Nat) ≠ 422))
    ∧ (apiClientResponseInterceptor status500Error).outcome
        = Except.error status500Error :=
  ⟨(response_interceptor_alert_policy status500Error
      { status := 500, message := none, detail := some "boom" }).1 rfl,
   (response_interceptor_alert_policy status500Error
      { status := 500, message := none, detail := some "boom" }).2.2.2.1⟩

/-- The `User` record of `src/contexts/AuthContext.tsx`. -/
structure AuthUser where
  id : String
  email : String
  name : String
deriving DecidableEq

/-- Whatever `auth_token` / `user` values sit in AsyncStorage at launch. -/
structure StoredAuth where
  auth_token : Option String := none
  user : Option AuthUser := none
deriving DecidableEq

/-- The provider state of `src/contexts/AuthContext.tsx`. -/
structure AuthState where
  user : Option AuthUser
  token : Option String
  isLoading : Bool
deriving DecidableEq

/-- `loadStoredAuth` from `src/contexts/AuthContext.tsx`: run on every app
start, it deliberately ignores the persisted storage and sets token and user
to null, then clears the loading flag. -/
def loadStoredAuth (stored : StoredAuth) (s : AuthState) : AuthState :=
  { s with token := none, user := none, isLoading := false }

/-- The state-changing events of the auth provider: startup initialization,
successful or failed login/register, the Google OAuth deep-link callback
(with or without the `token`/`user` query parameters), and logout. Failed
login/register throw to the caller and leave the state untouched. -/
inductive AuthAction where
  | loadStored (stored : StoredAuth)
  | loginOk (access_token : String) (u : AuthUser)
  | loginFailed
  | registerOk (access_token : String) (u : AuthUser)
  | registerFailed
  | deepLink (token : String) (u : AuthUser)
  | deepLinkWithoutParams
  | logout
deriving DecidableEq

/-- One transition of the auth provider, from `src/contexts/AuthContext.tsx`
(`loadStoredAuth`, `login`, `register`, `handleDeepLink`, `logout`). -/
def authStep (s : AuthState) (a : AuthAction) : AuthState :=
  match a with
  | .loadStored stored => loadStoredAuth stored s
  | .loginOk t u => { s with token := some t, user := some u }
  | .loginFailed => s
  | .registerOk t u => { s with token := some t, user := some u }
  | .registerFailed => s
  | .deepLink t u => { s with token := some t, user := some u }
  | .deepLinkWithoutParams => s
  | .logout => { s with token := none, user := none }

/-- C9: initialization leaves token and user null regardless of persisted
storage, and from a signed-out state the only transitions producing a token
are an explicit successful login, register, or deep-link callback. -/
theorem auth_init_never_restores_session (stored : StoredAuth)
    (s : AuthState) (a : AuthAction) :
    (authStep s (.loadStored stored)).token = none
    ∧ (authStep s (.loadStored stored)).user = none
    ∧ (s.token = none → (authStep s a).token ≠ none →
        ∃ t u, a = .loginOk t u ∨ a = .registerOk t u ∨ a = .deepLink t u) := by
  refine ⟨rfl, rfl, fun hs ha => ?_⟩
  cases a with
  | loadStored st => exact absurd rfl ha
  | loginOk t u => exact ⟨t, u, Or.inl rfl⟩
  | loginFailed => exact absurd hs ha
  | registerOk t u => exact ⟨t, u, Or.inr (Or.inl rfl)⟩
  | registerFailed => exact absurd hs ha
  | deepLink t u => exact ⟨t, u, Or.inr (Or.inr rfl)⟩
  | deepLinkWithoutParams => exact absurd hs ha
  | logout => exact absurd rfl ha

/-- A sample user record. -/
def sampleAuthUser : AuthUser := { id := "u1", email := "a@b.c", name := "A" }

/-- Persisted storage still holding a previous session's token and user. -/
def staleStoredAuth : StoredAuth :=
  { auth_token := some "stale-token"
    user := some sampleAuthUser }

/-- A signed-out provider state, as at app start. -/
def signedOutAuthState : AuthState :=
  { user := none, token := none, isLoading := true }

/-- A concrete instance of `auth_init_never_restores_session`: even with a
stale token and user persisted in storage, startup yields a null token, and
the signed-in transition reached afterwards is an explicit login. -/
theorem auth_init_never_restores_session_witness :
    (authStep signedOutAuthState (.loadStored staleStoredAuth)).token = none
    ∧ ∃ t u,
        AuthAction.loginOk "fresh-token" sampleAuthUser = .loginOk t u
          ∨ AuthAction.loginOk "fresh-token" sampleAuthUser = .registerOk t u
          ∨ AuthAction.loginOk "fresh-token" sampleAuthUser = .deepLink t u :=
  ⟨(auth_init_never_restores_session staleStoredAuth signedOutAuthState
      (.loginOk "fresh-token" sampleAuthUser)).1,
   (auth_init_never_restores_session staleStoredAuth signedOutAuthState
      (.loginOk "fresh-token" sampleAuthUser)).2.2 rfl
     (by simp [authStep, signedOutAuthState])⟩
